import Mathlib

/-!
Verification development for the btcturk HTTP client library.

The definitions below are a shallow embedding of the library's request
pipeline: the HMAC-SHA256 request signer (`ApiKeys`), the parameter
builder (`Parameters`), the dispatcher (`send`), the response envelope
(`Response`), the error taxonomy (`SendRequest`, `ResponseError`,
`Parameter`), and the endpoint wrappers relevant to the verified
properties (`ticker`, `all_orders`, `submit_order`/`market`).

External collaborators (the MAC primitive, base64, JSON
serialization, UTF-8 encoding) are modelled concretely and executably;
the JSON decoding done by serde and the HTTP transport are passed in as
explicit function/value arguments, so that `send` is a pure function of
the client state, the request and the observed world.
-/

namespace Btcturk

/-- Byte strings: lists of naturals, each intended to be < 256. -/
abbrev Bytes := List Nat

/-- Truncate to a 32-bit word. -/
def w32 (n : Nat) : Nat := n % 4294967296

/-- Truncate to a byte. -/
def w8 (n : Nat) : Nat := n % 256

/-- Rotate a word right by `n` bit positions. -/
def rotr32 (n x : Nat) : Nat := w32 ((x >>> n) ||| (x <<< (32 - n)))

/-- Bitwise complement of a 32-bit word. -/
def not32 (x : Nat) : Nat := x ^^^ 4294967295

/-- SHA-256 message schedule sigma-0. -/
def ssig0 (x : Nat) : Nat := (rotr32 7 x) ^^^ (rotr32 18 x) ^^^ (x >>> 3)

/-- SHA-256 message schedule sigma-1. -/
def ssig1 (x : Nat) : Nat := (rotr32 17 x) ^^^ (rotr32 19 x) ^^^ (x >>> 10)

/-- SHA-256 compression Sigma-0. -/
def bsig0 (x : Nat) : Nat := (rotr32 2 x) ^^^ (rotr32 13 x) ^^^ (rotr32 22 x)

/-- SHA-256 compression Sigma-1. -/
def bsig1 (x : Nat) : Nat := (rotr32 6 x) ^^^ (rotr32 11 x) ^^^ (rotr32 25 x)

/-- SHA-256 choice function. -/
def chW (x y z : Nat) : Nat := (x &&& y) ^^^ ((not32 x) &&& z)

/-- SHA-256 majority function. -/
def majW (x y z : Nat) : Nat := ((x &&& y) ^^^ (x &&& z)) ^^^ (y &&& z)

/-- The 64 SHA-256 round constants. -/
def sha256K : List Nat :=
  [1116352408, 1899447441, 3049323471, 3921009573, 961987163,
   1508970993, 2453635748, 2870763221, 3624381080, 310598401,
   607225278, 1426881987, 1925078388, 2162078206, 2614888103,
   3248222580, 3835390401, 4022224774, 264347078, 604807628,
   770255983, 1249150122, 1555081692, 1996064986, 2554220882,
   2821834349, 2952996808, 3210313671, 3336571891, 3584528711,
   113926993, 338241895, 666307205, 773529912, 1294757372,
   1396182291, 1695183700, 1986661051, 2177026350, 2456956037,
   2730485921, 2820302411, 3259730800, 3345764771, 3516065817,
   3600352804, 4094571909, 275423344, 430227734, 506948616,
   659060556, 883997877, 958139571, 1322822218, 1537002063,
   1747873779, 1955562222, 2024104815, 2227730452, 2361852424,
   2428436474, 2756734187, 3204031479, 3329325298]

/-- The eight words of internal SHA-256 state. -/
structure Hash8 where
  a : Nat
  b : Nat
  c : Nat
  d : Nat
  e : Nat
  f : Nat
  g : Nat
  hh : Nat
deriving Repr, DecidableEq

/-- SHA-256 initial hash value. -/
def sha256Init : Hash8 :=
  ⟨1779033703, 3144134277, 1013904242,
   2773480762, 1359893119, 2600822924,
   528734635, 1541459225⟩

/-- Big-endian 4-byte rendering of a 32-bit word. -/
def be32 (n : Nat) : Bytes := [w8 (n >>> 24), w8 (n >>> 16), w8 (n >>> 8), w8 n]

/-- Big-endian 8-byte rendering of a 64-bit length. -/
def be64 (n : Nat) : Bytes :=
  [w8 (n >>> 56), w8 (n >>> 48), w8 (n >>> 40), w8 (n >>> 32),
   w8 (n >>> 24), w8 (n >>> 16), w8 (n >>> 8), w8 n]

/-- Group bytes into big-endian 32-bit words. -/
def toWords : Bytes → List Nat
  | a :: b :: c :: d :: rest => (((a * 256 + b) * 256 + c) * 256 + d) :: toWords rest
  | _ => []

/-- Extend the 16 block words to the 64-entry message schedule.
The accumulator is kept reversed so the recently produced words are at
the head. -/
def extendW : Nat → List Nat → List Nat
  | 0, ws => ws.reverse
  | n + 1, ws =>
    let v := w32 (ssig1 (ws.getD 1 0) + ws.getD 6 0 + ssig0 (ws.getD 14 0) + ws.getD 15 0)
    extendW n (v :: ws)

/-- One SHA-256 compression round; the pair carries the round constant
and the schedule word. -/
def sha256Round (kw : Nat × Nat) (s : Hash8) : Hash8 :=
  let t1 := w32 (s.hh + bsig1 s.e + chW s.e s.f s.g + kw.1 + kw.2)
  let t2 := w32 (bsig0 s.a + majW s.a s.b s.c)
  ⟨w32 (t1 + t2), s.a, s.b, s.c, w32 (s.d + t1), s.e, s.f, s.g⟩

/-- Run the 64 compression rounds. -/
def sha256Rounds : List (Nat × Nat) → Hash8 → Hash8
  | [], s => s
  | kw :: rest, s => sha256Rounds rest (sha256Round kw s)

/-- Process one 64-byte block. -/
def processBlock (s : Hash8) (block : Bytes) : Hash8 :=
  let w := extendW 48 (toWords block).reverse
  let t := sha256Rounds (sha256K.zip w) s
  ⟨w32 (s.a + t.a), w32 (s.b + t.b), w32 (s.c + t.c), w32 (s.d + t.d),
   w32 (s.e + t.e), w32 (s.f + t.f), w32 (s.g + t.g), w32 (s.hh + t.hh)⟩

/-- Process a padded message 64 bytes at a time; the fuel bounds the
number of blocks and is in practice the message length. -/
def processChunks : Nat → Hash8 → Bytes → Hash8
  | 0, s, _ => s
  | _ + 1, s, [] => s
  | fuel + 1, s, msg => processChunks fuel (processBlock s (msg.take 64)) (msg.drop 64)

/-- SHA-256 padding: a 1-bit, zeros, and the 64-bit big-endian bit length. -/
def sha256Pad (msg : Bytes) : Bytes :=
  let l := msg.length
  let k := (120 - ((l + 1) % 64)) % 64
  msg ++ 0x80 :: List.replicate k 0 ++ be64 (8 * l)

/-- SHA-256 of a byte string. -/
def sha256 (msg : Bytes) : Bytes :=
  let padded := sha256Pad msg
  let s := processChunks padded.length sha256Init padded
  be32 s.a ++ be32 s.b ++ be32 s.c ++ be32 s.d ++
    be32 s.e ++ be32 s.f ++ be32 s.g ++ be32 s.hh

/-- HMAC-SHA256 (block size 64). -/
def hmacSha256 (key msg : Bytes) : Bytes :=
  let k0 := if key.length > 64 then sha256 key else key
  let k := k0 ++ List.replicate (64 - k0.length) 0
  let ipad := k.map (fun b => b ^^^ 0x36)
  let opad := k.map (fun b => b ^^^ 0x5c)
  sha256 (opad ++ sha256 (ipad ++ msg))

/-! ## Base64 (standard alphabet, padded) and UTF-8 -/

/-- The standard base64 alphabet. -/
def b64Alphabet : List Char :=
  "ABCDEFGHIJKLMNOPQRSTUVWXYZabcdefghijklmnopqrstuvwxyz0123456789+/".data

/-- Character for a 6-bit group. -/
def b64Char (n : Nat) : Char := b64Alphabet.getD n 'A'

/-- Encode bytes three at a time. -/
def b64EncodeChars : Bytes → List Char
  | [] => []
  | [a] => [b64Char (a >>> 2), b64Char ((a % 4) <<< 4), '=', '=']
  | [a, b] => [b64Char (a >>> 2), b64Char (((a % 4) <<< 4) ||| (b >>> 4)),
               b64Char ((b % 16) <<< 2), '=']
  | a :: b :: c :: rest =>
    b64Char (a >>> 2) :: b64Char (((a % 4) <<< 4) ||| (b >>> 4)) ::
      b64Char (((b % 16) <<< 2) ||| (c >>> 6)) :: b64Char (c % 64) ::
      b64EncodeChars rest

/-- Base64 encoding of a byte string. -/
def base64Encode (bs : Bytes) : String := String.mk (b64EncodeChars bs)

/-- Value of a base64 alphabet character. -/
def b64Val (c : Char) : Option Nat :=
  if 'A' ≤ c ∧ c ≤ 'Z' then some (c.toNat - 65)
  else if 'a' ≤ c ∧ c ≤ 'z' then some (c.toNat - 97 + 26)
  else if '0' ≤ c ∧ c ≤ '9' then some (c.toNat - 48 + 52)
  else if c = '+' then some 62
  else if c = '/' then some 63
  else none

/-- Decode base64 four characters at a time; `none` on malformed input. -/
def b64DecodeChars : List Char → Option Bytes
  | [] => some []
  | a :: b :: c :: d :: rest =>
    match b64Val a, b64Val b with
    | some va, some vb =>
      if c = '=' ∧ d = '=' ∧ rest = [] then
        some [(va <<< 2) ||| (vb >>> 4)]
      else if d = '=' ∧ rest = [] then
        match b64Val c with
        | some vc => some [(va <<< 2) ||| (vb >>> 4), ((vb % 16) <<< 4) ||| (vc >>> 2)]
        | none => none
      else
        match b64Val c, b64Val d, b64DecodeChars rest with
        | some vc, some vd, some bs =>
          some ([(va <<< 2) ||| (vb >>> 4), ((vb % 16) <<< 4) ||| (vc >>> 2),
                 ((vc % 4) <<< 6) ||| vd] ++ bs)
        | _, _, _ => none
    | _, _ => none
  | _ => none

/-- Base64 decoding of a string, as performed by the base64 crate's
`decode`. -/
def base64Decode (s : String) : Option Bytes := b64DecodeChars s.data

/-- UTF-8 encoding of one character. -/
def utf8Char (c : Char) : Bytes :=
  let n := c.toNat
  if n < 0x80 then [n]
  else if n < 0x800 then [0xc0 ||| (n >>> 6), 0x80 ||| (n &&& 0x3f)]
  else if n < 0x10000 then
    [0xe0 ||| (n >>> 12), 0x80 ||| ((n >>> 6) &&& 0x3f), 0x80 ||| (n &&& 0x3f)]
  else
    [0xf0 ||| (n >>> 18), 0x80 ||| ((n >>> 12) &&& 0x3f),
     0x80 ||| ((n >>> 6) &&& 0x3f), 0x80 ||| (n &&& 0x3f)]

/-- UTF-8 encoding of a string (`str::as_bytes`). -/
def utf8 (s : String) : Bytes := (s.data.map utf8Char).flatten

/-! ## JSON values, the serde_json object map, and `Parameters`
(src/http/request.rs) -/

/-- The fragment of `serde_json::Value` the parameter builder can
produce, plus `null` (needed to state that no parameter is ever encoded
as JSON null). Numbers pushed by the library are integers. -/
inductive JValue where
  | null
  | num (n : Int)
  | str (s : String)
deriving Repr, DecidableEq

/-- `serde_json::Value::as_str`. -/
def JValue.as_str : JValue → Option String
  | .str s => some s
  | _ => none

/-- Hex digit character. -/
def hexDigit (n : Nat) : Char := "0123456789abcdef".data.getD n '0'

/-- JSON string escaping of one character (serde_json's encoder:
quote, backslash and control characters are escaped). -/
def jsonEscapeChar (c : Char) : List Char :=
  if c = '"' then ['\\', '"']
  else if c = '\\' then ['\\', '\\']
  else if c = '\n' then ['\\', 'n']
  else if c = '\t' then ['\\', 't']
  else if c = '\r' then ['\\', 'r']
  else if c.toNat < 32 then
    ['\\', 'u', '0', '0', hexDigit (c.toNat >>> 4), hexDigit (c.toNat % 16)]
  else [c]

/-- JSON rendering of a string, quotes included. -/
def jsonString (s : String) : String :=
  "\"" ++ String.mk (s.data.map jsonEscapeChar).flatten ++ "\""

/-- `serde_json::Value::to_string` (compact JSON serialization). -/
def JValue.render : JValue → String
  | .null => "null"
  | .num n => toString n
  | .str s => jsonString s

/-- The serde_json object map (default feature set: a BTreeMap ordered
by key), as a key-sorted association list. -/
abbrev JMap := List (String × JValue)

/-- `BTreeMap::insert`: keep keys sorted, replace on an equal key. -/
def btreeInsert (k : String) (v : JValue) : JMap → JMap
  | [] => [(k, v)]
  | (k2, v2) :: rest =>
    if k < k2 then (k, v) :: (k2, v2) :: rest
    else if k = k2 then (k, v) :: rest
    else (k2, v2) :: btreeInsert k v rest

/-- Compact JSON serialization of an object map
(`serde_json::to_string` on a `Map<String, Value>`). -/
def serializeMap (m : JMap) : String :=
  "\x7b" ++ String.intercalate ","
    (m.map fun kv => jsonString kv.1 ++ ":" ++ kv.2.render) ++ "\x7d"

/-- `rust_decimal::Decimal`: a scaled integer. -/
structure Decimal where
  mantissa : Int
  scale : Nat
deriving Repr, DecidableEq

/-- `Decimal`'s `Display`: the mantissa with a decimal point inserted
`scale` digits from the right (canonical string form, never floating
point). -/
def Decimal.render (d : Decimal) : String :=
  let sign := if d.mantissa < 0 then "-" else ""
  let digits := toString d.mantissa.natAbs
  if d.scale = 0 then sign ++ digits
  else
    let digits := String.mk (List.replicate (d.scale + 1 - digits.length) '0') ++ digits
    let cs := digits.data
    sign ++ String.mk (cs.take (cs.length - d.scale)) ++ "." ++
      String.mk (cs.drop (cs.length - d.scale))

/-- The parameter builder (src/http/request.rs, `Parameters`). -/
structure Parameters where
  json_root : JMap

/-- `Parameters::new`. -/
def Parameters.new : Parameters := ⟨[]⟩

/-- `Parameters::root`. -/
def Parameters.root (p : Parameters) : JMap := p.json_root

/-- `Parameters::push_string`: inserts a JSON string, no-op on `None`. -/
def Parameters.push_string (p : Parameters) (name : String) (value : Option String) :
    Parameters :=
  match value with
  | some v => ⟨btreeInsert name (.str v) p.json_root⟩
  | none => p

/-- `Parameters::push_decimal`: renders the decimal and pushes it as a
string. -/
def Parameters.push_decimal (p : Parameters) (name : String) (value : Option Decimal) :
    Parameters :=
  p.push_string name (value.map Decimal.render)

/-- `Parameters::push_object`: the value is converted to its string
form and inserted as a JSON string; no-op on `None`. -/
def Parameters.push_object (p : Parameters) (name : String) (value : Option String) :
    Parameters :=
  match value with
  | some v => ⟨btreeInsert name (.str v) p.json_root⟩
  | none => p

/-- `Parameters::push_number`: inserts a JSON number, no-op on `None`. -/
def Parameters.push_number (p : Parameters) (name : String) (value : Option Int) :
    Parameters :=
  match value with
  | some v => ⟨btreeInsert name (.num v) p.json_root⟩
  | none => p

/-! ## Error taxonomy (src/error/) -/

/-- src/error/response.rs, `Response`: business-level failures signaled
by a decoded envelope or by caller-side post-processing. -/
inductive ResponseError where
  | Unsuccessful (message : Option String) (code : Int)
  | NullData
  | EmptyData
deriving Repr, DecidableEq

/-- src/error/parameter.rs, `Parameter`: client-side parameter
validation failure. -/
structure Parameter where
  name : String
  value : String
deriving Repr, DecidableEq

/-- src/error/private_key.rs, `PrivateKey`: credential construction
failure. -/
inductive PrivateKey where
  | InvalidLengthError
  | DecodeError
deriving Repr, DecidableEq

/-- Payload of Rust's `std::time::SystemTimeError` (the positive
duration by which the clock preceded the epoch). -/
structure SystemTimeErrorData where
  duration : Nat
deriving Repr, DecidableEq

/-- Diagnostic payload of the `surf` transport error as retained by
`SendRequest::SurfError` (status code and optional type name; the
wrapped source is kept as text). -/
structure SurfErrorData where
  status_code : Nat
  type_name : Option String
deriving Repr, DecidableEq

/-- src/error/send_request.rs, `SendRequest`: the tagged error union
returned by the dispatcher. -/
inductive SendRequest where
  | AuthenticationRequired
  | BadStatusCode (status_code : Nat) (response_string : String)
      (code : Option Int) (message : Option String)
  | SystemTimeError (source : SystemTimeErrorData)
  | SurfError (source : SurfErrorData)
  | SerdeJsonError
  | ResponseError (source : ResponseError)
  | ParameterError (source : Parameter)
deriving Repr, DecidableEq

/-! ## Response envelope (src/http/response.rs) -/

/-- The wire-level envelope `Response<D>`. -/
structure Response (D : Type) where
  data : Option D
  success : Bool
  message : Option String
  code : Int

/-- `Response::data` (renamed `getData`: the Lean field `data` takes
the source name): the envelope extraction rule. -/
def Response.getData {D : Type} (r : Response D) : Except ResponseError D :=
  if !r.success then
    .error (.Unsuccessful r.message r.code)
  else
    match r.data with
    | some d => .ok d
    | none => .error .NullData

/-! ## Signer (src/http/api_keys.rs) -/

/-- The cloneable HMAC context held by `ApiKeys` (`Hmac<Sha256>`): the
key it was seeded with plus the bytes fed so far. -/
structure HmacState where
  key : Bytes
  buffer : Bytes
deriving Repr, DecidableEq

/-- `Hmac::<Sha256>::new_from_slice` (HMAC accepts keys of any
length, so this never fails for HMAC). -/
def HmacState.new_from_slice (key : Bytes) : HmacState := ⟨key, []⟩

/-- `Mac::update`. -/
def HmacState.update (m : HmacState) (data : Bytes) : HmacState :=
  ⟨m.key, m.buffer ++ data⟩

/-- `Mac::finalize` followed by `into_bytes`. -/
def HmacState.finalize (m : HmacState) : Bytes := hmacSha256 m.key m.buffer

/-- src/http/api_keys.rs, `ApiKeys`. -/
structure ApiKeys where
  public_key : String
  private_key : String
  mac : HmacState
deriving Repr, DecidableEq

/-- `ApiKeys::new`: base64-decode the private key and seed the MAC
context with the decoded bytes. -/
def ApiKeys.new (public_key private_key : String) : Except PrivateKey ApiKeys :=
  match base64Decode private_key with
  | some key_bytes =>
    .ok ⟨public_key, private_key, HmacState.new_from_slice key_bytes⟩
  | none => .error .DecodeError

/-- `ApiKeys::generate_sign_nonce`. The system clock is passed
explicitly: `clock` is the result of
`SystemTime::now().duration_since(UNIX_EPOCH)` rendered in
milliseconds. -/
def ApiKeys.generate_sign_nonce (k : ApiKeys)
    (clock : Except SystemTimeErrorData Nat) :
    Except SystemTimeErrorData (String × String) :=
  match clock with
  | .error e => .error e
  | .ok millis =>
    let mac := k.mac
    let timestamp := toString millis
    let mac := mac.update (utf8 (k.public_key ++ timestamp))
    .ok (base64Encode mac.finalize, timestamp)

/-! ## Requests, URLs and the client (src/http/request.rs,
src/http/client/) -/

/-- HTTP methods used by the library. -/
inductive Method where
  | Get
  | Post
  | Delete
deriving Repr, DecidableEq

/-- A parsed URL: rendered base plus decoded query pairs. -/
structure Url where
  base : String
  query : List (String × String)
deriving Repr, DecidableEq

/-- src/http/request.rs, `Request`. -/
structure Request where
  endpoint : Url
  parameters : Parameters
  method : Method
  requires_auth : Bool

/-- src/http/client/url_cache.rs, `UrlCache` (production base). -/
structure UrlCache where
  ticker : Url
  currency : Url
  order_book : Url
  trades : Url
  ohlc : Url
  account_balance : Url
  trade_transactions : Url
  crypto_transactions : Url
  fiat_transactions : Url
  open_orders : Url
  all_orders : Url
  submit_cancel_order : Url
  exchange_info : Url

/-- `UrlCache::new` with the hardcoded production URLs. -/
def UrlCache.new : UrlCache :=
  ⟨⟨"https://api.btcturk.com/api/v2/ticker", []⟩,
   ⟨"https://api.btcturk.com/api/v2/ticker/currency", []⟩,
   ⟨"https://api.btcturk.com/api/v2/orderbook", []⟩,
   ⟨"https://api.btcturk.com/api/v2/trades", []⟩,
   ⟨"https://graph-api.btcturk.com/v1/ohlcs", []⟩,
   ⟨"https://api.btcturk.com/api/v1/users/balances", []⟩,
   ⟨"https://api.btcturk.com/api/v1/users/transactions/trade", []⟩,
   ⟨"https://api.btcturk.com/api/v1/users/transactions/crypto", []⟩,
   ⟨"https://api.btcturk.com/api/v1/users/transactions/fiat", []⟩,
   ⟨"https://api.btcturk.com/api/v1/openOrders", []⟩,
   ⟨"https://api.btcturk.com/api/v1/allOrders", []⟩,
   ⟨"https://api.btcturk.com/api/v1/order", []⟩,
   ⟨"https://api.btcturk.com/api/v2/server/exchangeinfo", []⟩⟩

/-- src/http/client/mod.rs, `Client`. -/
structure Client where
  keys : Option ApiKeys
  id : Option String
  url_cache : UrlCache

/-- `Client::new`. -/
def Client.new (keys : Option ApiKeys) (id : Option String) : Client :=
  ⟨keys, id, UrlCache.new⟩

/-- The status and fully read body of an HTTP exchange. -/
structure HttpResponse where
  status : Nat
  body : String

/-- What one `send` call hands to the transport: final URL, optional
body, headers in the order they are set. -/
structure OutRequest where
  url : Url
  body : Option String
  headers : List (String × String)
deriving Repr, DecidableEq

/-- Result of a `send` call: the returned value or error, plus the
request actually given to the transport (`none` when the transport was
never invoked). -/
structure SendOutcome (D : Type) where
  result : Except SendRequest D
  transmitted : Option OutRequest

/-- The query-pair rendering of one parameter (`Client::send` lines
122-129): strings are appended as-is via `as_str`, anything else via
`Value::to_string`. -/
def queryPair (kv : String × JValue) : String × String :=
  match kv.2.as_str with
  | some s => (kv.1, s)
  | none => (kv.1, kv.2.render)

/-- Parameter encoding in `Client::send` (lines 117-131): POST
serializes the whole map as one JSON body; GET/DELETE append one query
pair per parameter. -/
def encodeParameters (request : Request) : Url × Option String :=
  if request.method = Method.Post then
    (request.endpoint, some (serializeMap request.parameters.root))
  else
    ({ request.endpoint with
        query := request.endpoint.query ++ request.parameters.root.map queryPair },
     none)

/-- The transmit/classify/decode tail of `Client::send` (lines
147-183): transport failure, status classification with best-effort
diagnostic decode, then the bare or enveloped decode path. -/
def dispatchResult {D : Type} (decodeEnv : String → Option (Response D))
    (decodeBare : String → Option D) (bare_data : Bool)
    (transport : Except SurfErrorData HttpResponse) : Except SendRequest D :=
  match transport with
  | .error e => .error (.SurfError e)
  | .ok response =>
    let response_string := response.body
    if response.status ≠ 200 then
      let cm : Option Int × Option String :=
        match decodeEnv response_string with
        | some r => (some r.code, r.message)
        | none => (none, none)
      .error (.BadStatusCode response.status response_string cm.1 cm.2)
    else if bare_data then
      match decodeBare response_string with
      | some d => .ok d
      | none => .error .SerdeJsonError
    else
      match decodeEnv response_string with
      | some r =>
        match r.getData with
        | .ok d => .ok d
        | .error e => .error (.ResponseError e)
      | none => .error .SerdeJsonError

/-- `Client::send`. `clock` is the system-clock observation used by
signing; `transport` is the observed HTTP exchange (or transport
failure); `decodeEnv`/`decodeBare` are serde's `from_str` for
`Response<D>` and `D`. -/
def Client.send {D : Type} (client : Client)
    (decodeEnv : String → Option (Response D))
    (decodeBare : String → Option D)
    (request : Request) (bare_data : Bool)
    (clock : Except SystemTimeErrorData Nat)
    (transport : Except SurfErrorData HttpResponse) :
    SendOutcome D :=
  let (url, body) := encodeParameters request
  let headers := [("Content-Type", "application/json")]
  let auth : Except SendRequest (List (String × String)) :=
    if request.requires_auth then
      match client.keys with
      | some keys =>
        match keys.generate_sign_nonce clock with
        | .ok (sign, nonce) =>
          .ok (headers ++ [("X-PCK", keys.public_key), ("X-Stamp", nonce),
                           ("X-Signature", sign)])
        | .error e => .error (.SystemTimeError e)
      | none => .error .AuthenticationRequired
    else
      .ok headers
  match auth with
  | .error e => ⟨.error e, none⟩
  | .ok headers =>
    ⟨dispatchResult decodeEnv decodeBare bare_data transport,
     some ⟨url, body, headers⟩⟩

/-! ## Endpoint wrapper data types (src/http/order_*.rs and payload
structs) -/

/-- src/http/order_type.rs, `OrderType`. -/
inductive OrderType where
  | Buy
  | Sell
deriving Repr, DecidableEq

/-- `OrderType`'s `Display`/`Into<String>`. -/
def OrderType.render : OrderType → String
  | .Buy => "buy"
  | .Sell => "sell"

/-- src/http/order_method.rs, `OrderMethod`. -/
inductive OrderMethod where
  | Market
  | Limit
  | StopLimit
  | StopMarket
deriving Repr, DecidableEq

/-- `OrderMethod`'s `Display`/`Into<String>`. -/
def OrderMethod.render : OrderMethod → String
  | .Market => "market"
  | .Limit => "limit"
  | .StopLimit => "stoplimit"
  | .StopMarket => "stopmarket"

/-- src/http/order_status.rs, `OrderStatus`. -/
inductive OrderStatus where
  | Canceled
  | Filled
  | Untouched
deriving Repr, DecidableEq

/-- src/http/public/ticker/mod.rs, `Ticker`. -/
structure Ticker where
  pair : String
  pair_normalized : String
  timestamp : Nat
  last : Decimal
  high : Decimal
  low : Decimal
  bid : Decimal
  ask : Decimal
  «open» : Decimal
  volume : Decimal
  average : Decimal
  daily : Decimal
  daily_percent : Decimal
  denominator_symbol : String
  numerator_symbol : String
  order : Nat
deriving Repr, DecidableEq

/-- src/http/private/all_orders/mod.rs, `Order`. -/
structure Order where
  id : Int
  price : Decimal
  amount : Decimal
  quantity : Decimal
  pair_symbol : String
  pair_symbol_normalized : String
  «type» : String
  method : OrderMethod
  order_client_id : String
  time : Nat
  update_time : Nat
  status : OrderStatus
deriving Repr, DecidableEq

/-- src/http/private/submit_order/mod.rs, `NewOrder`. -/
structure NewOrder where
  id : Int
  date_time : Nat
  «type» : OrderType
  method : OrderMethod
  price : Option Decimal
  stop_price : Option Decimal
  quantity : Option Decimal
  pair_symbol : String
  pair_symbol_normalized : String
  new_order_client_id : String
deriving Repr, DecidableEq

/-! ## Endpoint wrappers (src/http/public/ticker/mod.rs,
src/http/private/all_orders/mod.rs,
src/http/private/submit_order/mod.rs) -/

/-- `Client::ticker`: fetch the ticker list for one pair, keep the
first element, map an empty list to `EmptyData`. -/
def Client.ticker (client : Client)
    (decodeEnv : String → Option (Response (List Ticker)))
    (decodeBare : String → Option (List Ticker))
    (pair_symbol : String)
    (clock : Except SystemTimeErrorData Nat)
    (transport : Except SurfErrorData HttpResponse) :
    SendOutcome Ticker :=
  let parameters := Parameters.new.push_string "pairSymbol" (some pair_symbol)
  let out := client.send decodeEnv decodeBare
    ⟨client.url_cache.ticker, parameters, Method.Get, false⟩ false clock transport
  match out.result with
  | .error e => ⟨.error e, out.transmitted⟩
  | .ok tickers =>
    match tickers with
    | [] => ⟨.error (.ResponseError .EmptyData), out.transmitted⟩
    | t :: _ => ⟨.ok t, out.transmitted⟩

/-- The parameter map built by `Client::all_orders` before the limit
parameter is considered (src/http/private/all_orders/mod.rs lines
37-44). -/
def allOrdersParams (order_id : Option Int) (pair_symbol : String)
    (time_range : Option (Nat × Nat)) (page : Option Nat) : Parameters :=
  let parameters := Parameters.new
  let parameters := parameters.push_number "orderId" order_id
  let parameters := parameters.push_string "pairSymbol" (some pair_symbol)
  let parameters :=
    match time_range with
    | some range =>
      (parameters.push_number "startTime" (some (range.1 : Int))).push_number
        "endTime" (some (range.2 : Int))
    | none => parameters
  parameters.push_number "page" (page.map fun p => (p : Int))

/-- `Client::all_orders` (src/http/private/all_orders/mod.rs lines
29-63): build the query parameters, reject a `limit` above 1000 before
any I/O, then dispatch with authentication. -/
def Client.all_orders (client : Client)
    (decodeEnv : String → Option (Response (List Order)))
    (decodeBare : String → Option (List Order))
    (order_id : Option Int) (pair_symbol : String)
    (time_range : Option (Nat × Nat)) (page : Option Nat)
    (limit : Option Nat)
    (clock : Except SystemTimeErrorData Nat)
    (transport : Except SurfErrorData HttpResponse) :
    SendOutcome (List Order) :=
  let parameters := allOrdersParams order_id pair_symbol time_range page
  let checked : Except Parameter Parameters :=
    match limit with
    | some l =>
      if l > 1000 then .error ⟨"limit", toString l⟩
      else .ok (parameters.push_number "limit" (some (l : Int)))
    | none => .ok parameters
  match checked with
  | .error p => ⟨.error (.ParameterError p), none⟩
  | .ok parameters =>
    client.send decodeEnv decodeBare
      ⟨client.url_cache.all_orders, parameters, Method.Get, true⟩ false
      clock transport

/-- The private parameter struct of src/http/private/submit_order/mod.rs. -/
structure SubmitParameters where
  quantity : Option Decimal
  price : Option Decimal
  stop_price : Option Decimal
  new_order_client_id : Option String
  order_method : OrderMethod
  order_type : OrderType
  pair_symbol : String

/-- The parameter map built by `Client::submit_order` (lines 29-36). -/
def SubmitParameters.toParams (p : SubmitParameters) : Parameters :=
  let params := Parameters.new
  let params := params.push_decimal "quantity" p.quantity
  let params := params.push_decimal "price" p.price
  let params := params.push_decimal "stopPrice" p.stop_price
  let params := params.push_string "newOrderClientId" p.new_order_client_id
  let params := params.push_object "orderMethod" (some p.order_method.render)
  let params := params.push_object "orderType" (some p.order_type.render)
  let params := params.push_string "pairSymbol" (some p.pair_symbol)
  params

/-- `Client::submit_order`: POST the built parameters to the order
endpoint with authentication. -/
def Client.submit_order (client : Client)
    (decodeEnv : String → Option (Response NewOrder))
    (decodeBare : String → Option NewOrder)
    (parameters : SubmitParameters)
    (clock : Except SystemTimeErrorData Nat)
    (transport : Except SurfErrorData HttpResponse) :
    SendOutcome NewOrder :=
  client.send decodeEnv decodeBare
    ⟨client.url_cache.submit_cancel_order, parameters.toParams, Method.Post, true⟩
    false clock transport

/-- `Client::market` (src/http/private/submit_order/mod.rs lines
49-65): a market order fixes `price = None` and `stop_price = None`. -/
def Client.market (client : Client)
    (decodeEnv : String → Option (Response NewOrder))
    (decodeBare : String → Option NewOrder)
    (pair_symbol : String) (quantity : Decimal) (order_type : OrderType)
    (clock : Except SystemTimeErrorData Nat)
    (transport : Except SurfErrorData HttpResponse) :
    SendOutcome NewOrder :=
  client.submit_order decodeEnv decodeBare
    ⟨some quantity, none, none, client.id, OrderMethod.Market, order_type,
     pair_symbol⟩ clock transport

/-! ## Reference definitions written from the spec's words -/

/-- Reference signature from §4.1/§8 of the spec: the base64 encoding
of HMAC-SHA256 keyed with the base64-decoded private key bytes over the
UTF-8 bytes of the public key concatenated with the nonce, no
separator. -/
def referenceSignature (public_key private_key nonce : String) : Option String :=
  (base64Decode private_key).map fun key =>
    base64Encode (hmacSha256 key (utf8 public_key ++ utf8 nonce))

/-- Discriminator for the transport-failure variant of the error
union. -/
def SendRequest.isSurfError : SendRequest → Bool
  | .SurfError _ => true
  | _ => false

/-! ## Helper lemmas -/

theorem utf8_append (s t : String) : utf8 (s ++ t) = utf8 s ++ utf8 t := by
  simp [utf8, String.data_append]

theorem getData_ne_emptyData {D : Type} (r : Response D) :
    r.getData ≠ Except.error ResponseError.EmptyData := by
  rcases r with ⟨data, success, message, code⟩
  cases success <;> cases data <;> simp [Response.getData]

theorem mem_keys_btreeInsert (k3 k : String) (v : JValue) (m : JMap) :
    k3 ∈ (btreeInsert k v m).map Prod.fst ↔ k3 = k ∨ k3 ∈ m.map Prod.fst := by
  induction m with
  | nil => simp [btreeInsert]
  | cons hd tl ih =>
    rcases hd with ⟨k2, v2⟩
    by_cases h1 : k < k2
    · simp [btreeInsert, h1]
    · by_cases h2 : k = k2
      · subst h2
        simp [btreeInsert, h1]
        try tauto
      · simp [btreeInsert, h1, h2, ih]
        try tauto

theorem self_mem_btreeInsert (k : String) (v : JValue) (m : JMap) :
    (k, v) ∈ btreeInsert k v m := by
  induction m with
  | nil => simp [btreeInsert]
  | cons hd tl ih =>
    rcases hd with ⟨k2, v2⟩
    by_cases h1 : k < k2
    · simp [btreeInsert, h1]
    · by_cases h2 : k = k2 <;> simp [btreeInsert, h1, h2, ih]

theorem mem_btreeInsert_elim (kv : String × JValue) (k : String) (v : JValue)
    (m : JMap) (h : kv ∈ btreeInsert k v m) : kv = (k, v) ∨ kv ∈ m := by
  induction m with
  | nil => simpa [btreeInsert] using h
  | cons hd tl ih =>
    rcases hd with ⟨k2, v2⟩
    by_cases h1 : k < k2
    · simp [btreeInsert, h1] at h ⊢
      tauto
    · by_cases h2 : k = k2
      · subst h2
        simp [btreeInsert, h1] at h ⊢
        tauto
      · simp [btreeInsert, h1, h2] at h
        rcases h with h | h
        · simp [h]
        · rcases ih h with h3 | h3 <;> simp [h3]

/-! ## C1: signature and nonce -/

/-- C1: for a fixed public key, private key and clock reading, signing
yields exactly the reference value: the base64 encoding of HMAC-SHA256
keyed with the base64-decoded private key bytes over the UTF-8 bytes of
`public_key ++ nonce`, and the nonce is the clock's milliseconds since
epoch rendered as a base-10 string. -/
theorem c1_signature_determinism (public_key private_key : String)
    (keys : ApiKeys) (millis : Nat)
    (hnew : ApiKeys.new public_key private_key = .ok keys) :
    ∃ sig : String,
      keys.generate_sign_nonce (.ok millis) = .ok (sig, toString millis) ∧
      referenceSignature public_key private_key (toString millis) = some sig := by
  unfold ApiKeys.new at hnew
  rcases hdec : base64Decode private_key with _ | key_bytes <;> rw [hdec] at hnew
  · exact absurd hnew (by simp)
  · have hkeys : keys = ⟨public_key, private_key, HmacState.new_from_slice key_bytes⟩ := by
      cases hnew
      rfl
    subst hkeys
    refine ⟨base64Encode (hmacSha256 key_bytes (utf8 public_key ++ utf8 (toString millis))), ?_, ?_⟩
    · simp [ApiKeys.generate_sign_nonce, HmacState.new_from_slice, HmacState.update,
        HmacState.finalize, utf8_append]
    · simp [referenceSignature, hdec]

/-- C1 witness: a concrete key pair and clock reading. -/
theorem c1_signature_determinism_witness :
    ∃ sig : String,
      ApiKeys.generate_sign_nonce ⟨"pk", "AAAA", ⟨[0, 0, 0], []⟩⟩ (.ok 1700000000000) =
        .ok (sig, toString 1700000000000) ∧
      referenceSignature "pk" "AAAA" (toString 1700000000000) = some sig :=
  c1_signature_determinism "pk" "AAAA" ⟨"pk", "AAAA", ⟨[0, 0, 0], []⟩⟩
    1700000000000 (by rfl)

/-! ## C2: envelope extraction -/

/-- C2: `success = false` yields `Unsuccessful` with exactly the
envelope's code and message for all pairs; `success = true` with null
data yields `NullData`; `success = true` with data `v` yields `Ok v`,
for arbitrary `v`. -/
theorem c2_envelope_extraction {D : Type} :
    (∀ (d : Option D) (message : Option String) (code : Int),
      Response.getData ⟨d, false, message, code⟩ =
        Except.error (ResponseError.Unsuccessful message code)) ∧
    (∀ (message : Option String) (code : Int),
      Response.getData (⟨none, true, message, code⟩ : Response D) =
        Except.error ResponseError.NullData) ∧
    (∀ (v : D) (message : Option String) (code : Int),
      Response.getData ⟨some v, true, message, code⟩ = Except.ok v) :=
  ⟨fun _ _ _ => rfl, fun _ _ => rfl, fun _ _ _ => rfl⟩

/-! ## C3: authentication gating -/

/-- C3: an auth-required request on a client with no credentials fails
with `AuthenticationRequired` and the transport is never invoked. -/
theorem c3_auth_gating {D : Type} (client : Client)
    (dE : String → Option (Response D)) (dB : String → Option D)
    (request : Request) (bare_data : Bool)
    (clock : Except SystemTimeErrorData Nat)
    (transport : Except SurfErrorData HttpResponse)
    (hkeys : client.keys = none) (hauth : request.requires_auth = true) :
    client.send dE dB request bare_data clock transport =
      ⟨Except.error SendRequest.AuthenticationRequired, none⟩ := by
  rcases hE : encodeParameters request with ⟨url, body⟩
  simp [Client.send, hE, hkeys, hauth]

/-- C3 witness. -/
theorem c3_auth_gating_witness :
    (Client.new none none).send (fun _ => (none : Option (Response Nat)))
        (fun _ => none) ⟨⟨"u", []⟩, Parameters.new, Method.Get, true⟩ false
        (.ok 0) (.error ⟨0, none⟩) =
      ⟨Except.error SendRequest.AuthenticationRequired, none⟩ :=
  c3_auth_gating (Client.new none none) _ _ _ false (.ok 0) (.error ⟨0, none⟩)
    rfl rfl

/-! ## C8: clock failure classification -/

/-- C8 counterexample: with a failing clock on an authenticated
request, the error surfaced is the dedicated `SystemTimeError` variant,
which is not the `SurfError` variant that carries network/HTTP-stack
failures — so the clock error is not grouped with transport failures in
the code's error union. -/
theorem c8_counterexample :
    ((Client.new (some ⟨"pk", "AAAA", ⟨[0, 0, 0], []⟩⟩) none).send
        (fun _ => (none : Option (Response Nat))) (fun _ => none)
        ⟨⟨"u", []⟩, Parameters.new, Method.Get, true⟩ false
        (.error ⟨5⟩) (.error ⟨0, none⟩)).result =
      Except.error (SendRequest.SystemTimeError ⟨5⟩) ∧
    SendRequest.isSurfError (SendRequest.SystemTimeError ⟨5⟩) = false :=
  ⟨rfl, rfl⟩

/-- C8 (amended): a clock failure while computing the nonce makes
signing fail before any network I/O, and is surfaced as the dedicated
`SystemTimeError` variant of the error union, distinct from the
`SurfError` variant used for network/HTTP-stack failures. -/
theorem c8_clock_error_distinct_variant {D : Type} (client : Client) (k : ApiKeys)
    (dE : String → Option (Response D)) (dB : String → Option D)
    (request : Request) (bare_data : Bool) (e : SystemTimeErrorData)
    (s : SurfErrorData) (transport : Except SurfErrorData HttpResponse)
    (hkeys : client.keys = some k) (hauth : request.requires_auth = true) :
    client.send dE dB request bare_data (.error e) transport =
      ⟨Except.error (SendRequest.SystemTimeError e), none⟩ ∧
    SendRequest.SystemTimeError e ≠ SendRequest.SurfError s := by
  rcases hE : encodeParameters request with ⟨url, body⟩
  constructor
  · simp [Client.send, hE, hkeys, hauth, ApiKeys.generate_sign_nonce]
  · simp

/-- C8 witness for the amended statement. -/
theorem c8_clock_error_distinct_variant_witness :
    (Client.new (some ⟨"pk", "AAAA", ⟨[0, 0, 0], []⟩⟩) none).send
        (fun _ => (none : Option (Response Nat))) (fun _ => none)
        ⟨⟨"u", []⟩, Parameters.new, Method.Get, true⟩ false
        (.error ⟨7⟩) (.error ⟨0, none⟩) =
      ⟨Except.error (SendRequest.SystemTimeError ⟨7⟩), none⟩ ∧
    SendRequest.SystemTimeError ⟨7⟩ ≠ SendRequest.SurfError ⟨0, none⟩ :=
  c8_clock_error_distinct_variant
    (Client.new (some ⟨"pk", "AAAA", ⟨[0, 0, 0], []⟩⟩) none)
    ⟨"pk", "AAAA", ⟨[0, 0, 0], []⟩⟩ _ _ _ false ⟨7⟩ ⟨0, none⟩ (.error ⟨0, none⟩)
    rfl rfl

/-! ## C10: first element of the decoded ticker list -/

/-- C10: whenever the decoded ticker list is non-empty, `ticker`
returns its first element and silently discards the rest; extra
elements never cause an error. -/
theorem c10_ticker_takes_first (client : Client)
    (dE : String → Option (Response (List Ticker)))
    (dB : String → Option (List Ticker))
    (pair_symbol body : String) (clock : Except SystemTimeErrorData Nat)
    (t : Ticker) (ts : List Ticker) (message : Option String) (code : Int)
    (hdec : dE body = some ⟨some (t :: ts), true, message, code⟩) :
    (client.ticker dE dB pair_symbol clock (.ok ⟨200, body⟩)).result =
      Except.ok t := by
  simp [Client.ticker, Client.send, encodeParameters, dispatchResult, hdec,
    Response.getData]

/-- C10 witness: a two-element decoded list yields the first element. -/
theorem c10_ticker_takes_first_witness :
    ((Client.new none none).ticker
        (fun _ => some ⟨some
          [⟨"BTCUSDT", "BTC_USDT", 0, ⟨1, 0⟩, ⟨1, 0⟩, ⟨1, 0⟩, ⟨1, 0⟩, ⟨1, 0⟩,
            ⟨1, 0⟩, ⟨1, 0⟩, ⟨1, 0⟩, ⟨1, 0⟩, ⟨1, 0⟩, "USDT", "BTC", 1⟩,
           ⟨"ETHUSDT", "ETH_USDT", 0, ⟨2, 0⟩, ⟨2, 0⟩, ⟨2, 0⟩, ⟨2, 0⟩, ⟨2, 0⟩,
            ⟨2, 0⟩, ⟨2, 0⟩, ⟨2, 0⟩, ⟨2, 0⟩, ⟨2, 0⟩, "USDT", "ETH", 2⟩], true, none, 0⟩)
        (fun _ => none) "BTCUSDT" (.ok 0) (.ok ⟨200, "body"⟩)).result =
      Except.ok ⟨"BTCUSDT", "BTC_USDT", 0, ⟨1, 0⟩, ⟨1, 0⟩, ⟨1, 0⟩, ⟨1, 0⟩, ⟨1, 0⟩,
        ⟨1, 0⟩, ⟨1, 0⟩, ⟨1, 0⟩, ⟨1, 0⟩, ⟨1, 0⟩, "USDT", "BTC", 1⟩ :=
  c10_ticker_takes_first (Client.new none none) _ _ "BTCUSDT" "body" (.ok 0)
    _ _ none 0 rfl

/-! ## C4 and C5: status classification and parameter encoding -/

theorem queryPair_eq (kv : String × JValue) :
    queryPair kv = (kv.1, match kv.2 with
      | JValue.str s => s
      | JValue.num n => toString n
      | JValue.null => "null") := by
  rcases kv with ⟨k, v⟩
  cases v <;> rfl

/-- Whenever a `send` call passes the auth gate (no auth needed, or
keys and clock available), the transport is invoked with the encoded
URL and body. -/
theorem send_transmitted {D : Type} (client : Client)
    (dE : String → Option (Response D)) (dB : String → Option D)
    (request : Request) (bare_data : Bool)
    (clock : Except SystemTimeErrorData Nat)
    (transport : Except SurfErrorData HttpResponse)
    (hauth : request.requires_auth = false ∨
      ((∃ k, client.keys = some k) ∧ ∃ m, clock = .ok m)) :
    ∃ sent : OutRequest,
      (client.send dE dB request bare_data clock transport).transmitted = some sent ∧
      sent.url = (encodeParameters request).1 ∧
      sent.body = (encodeParameters request).2 := by
  rcases hE : encodeParameters request with ⟨url, body⟩
  rcases hauth with hauth | ⟨⟨k, hk⟩, ⟨m, hm⟩⟩
  · refine ⟨⟨url, body, [("Content-Type", "application/json")]⟩, ?_, ?_, ?_⟩
    · simp [Client.send, hE, hauth]
    · simp [hE]
    · simp [hE]
  · subst hm
    by_cases h : request.requires_auth
    · refine ⟨⟨url, body,
        [("Content-Type", "application/json"), ("X-PCK", k.public_key),
         ("X-Stamp", toString m),
         ("X-Signature",
          base64Encode ((k.mac.update (utf8 (k.public_key ++ toString m))).finalize))]⟩,
        ?_, ?_, ?_⟩
      · simp [Client.send, hE, h, hk, ApiKeys.generate_sign_nonce]
      · simp [hE]
      · simp [hE]
    · refine ⟨⟨url, body, [("Content-Type", "application/json")]⟩, ?_, ?_, ?_⟩
      · simp [Client.send, hE, h]
      · simp [hE]
      · simp [hE]

/-- C4: any response with a non-200 status — uniformly in the numeric
code — yields `BadStatusCode` carrying the status and the raw body,
with `code`/`message` taken from a best-effort envelope decode of the
body; a failing decode leaves both absent and never escalates. -/
theorem c4_bad_status_code {D : Type} (client : Client)
    (dE : String → Option (Response D)) (dB : String → Option D)
    (request : Request) (bare_data : Bool)
    (clock : Except SystemTimeErrorData Nat) (resp : HttpResponse)
    (hstatus : resp.status ≠ 200)
    (hsent : (client.send dE dB request bare_data clock (.ok resp)).transmitted ≠ none) :
    (client.send dE dB request bare_data clock (.ok resp)).result =
      Except.error (SendRequest.BadStatusCode resp.status resp.body
        ((dE resp.body).map Response.code)
        ((dE resp.body).bind Response.message)) := by
  rcases hE : encodeParameters request with ⟨url, body⟩
  by_cases hauth : request.requires_auth
  · rcases hk : client.keys with _ | k
    · exact absurd (by simp [Client.send, hE, hauth, hk]) hsent
    · rcases hm : clock with e | m
      · exact absurd (by simp [Client.send, hE, hauth, hk, hm,
          ApiKeys.generate_sign_nonce]) hsent
      · rcases hd : dE resp.body with _ | r <;>
          simp [Client.send, hE, hauth, hk, hm, ApiKeys.generate_sign_nonce,
            dispatchResult, hstatus, hd]
  · rcases hd : dE resp.body with _ | r <;>
      simp [Client.send, hE, hauth, dispatchResult, hstatus, hd]

/-- C4 witness: a 404 with an undecodable body. -/
theorem c4_bad_status_code_witness :
    ((Client.new none none).send (fun _ => (none : Option (Response Nat)))
        (fun _ => none) ⟨⟨"u", []⟩, Parameters.new, Method.Get, false⟩ false
        (.ok 0) (.ok ⟨404, "oops"⟩)).result =
      Except.error (SendRequest.BadStatusCode 404 "oops" none none) :=
  c4_bad_status_code (Client.new none none) _ _
    ⟨⟨"u", []⟩, Parameters.new, Method.Get, false⟩ false (.ok 0) ⟨404, "oops"⟩
    (by decide) (by simp [Client.send, encodeParameters])

/-- C5: parameter encoding per method: GET and DELETE turn each
parameter into one URL query pair (string values passed through,
non-string values rendered to their string form) and send no body;
POST serializes the whole parameter map as a single JSON object body
and appends no query pairs. -/
theorem c5_parameter_encoding {D : Type} (client : Client)
    (dE : String → Option (Response D)) (dB : String → Option D)
    (request : Request) (bare_data : Bool)
    (clock : Except SystemTimeErrorData Nat)
    (transport : Except SurfErrorData HttpResponse)
    (hauth : request.requires_auth = false) :
    (client.send dE dB request bare_data clock transport).transmitted = some
      ⟨(match request.method with
        | Method.Post => request.endpoint
        | _ => { request.endpoint with
            query := request.endpoint.query ++ request.parameters.root.map
              (fun kv => (kv.1, match kv.2 with
                | JValue.str s => s
                | JValue.num n => toString n
                | JValue.null => "null")) }),
       (match request.method with
        | Method.Post => some (serializeMap request.parameters.root)
        | _ => none),
       [("Content-Type", "application/json")]⟩ := by
  have hq : (request.parameters.root.map queryPair) =
      request.parameters.root.map (fun kv => (kv.1, match kv.2 with
        | JValue.str s => s
        | JValue.num n => toString n
        | JValue.null => "null")) :=
    List.map_congr_left fun kv _ => queryPair_eq kv
  cases hM : request.method <;>
    simp [Client.send, encodeParameters, hauth, hM, hq]

/-- C5 witness: a GET with a string and a numeric parameter, and the
corresponding POST body. -/
theorem c5_parameter_encoding_witness :
    ((Client.new none none).send (fun _ => (none : Option (Response Nat)))
        (fun _ => none)
        ⟨⟨"u", []⟩, ⟨[("limit", JValue.num 100), ("pairSymbol", JValue.str "BTCUSDT")]⟩,
          Method.Get, false⟩ false (.ok 0) (.error ⟨0, none⟩)).transmitted = some
      ⟨⟨"u", [("limit", "100"), ("pairSymbol", "BTCUSDT")]⟩, none,
       [("Content-Type", "application/json")]⟩ :=
  c5_parameter_encoding (Client.new none none) _ _
    ⟨⟨"u", []⟩, ⟨[("limit", JValue.num 100), ("pairSymbol", JValue.str "BTCUSDT")]⟩,
      Method.Get, false⟩ false (.ok 0) (.error ⟨0, none⟩) rfl

/-! ## C6: optional fields are omitted, never null -/

/-- C6: every insertion operation of the parameter builder is a no-op
on `None`, and the parameter map of a market order (quantity given,
price absent) has a `quantity` key, no `price` key, and no JSON-null
value anywhere. -/
theorem c6_optional_field_omission :
    (∀ (p : Parameters) (name : String), p.push_string name none = p) ∧
    (∀ (p : Parameters) (name : String), p.push_number name none = p) ∧
    (∀ (p : Parameters) (name : String), p.push_decimal name none = p) ∧
    (∀ (p : Parameters) (name : String), p.push_object name none = p) ∧
    (∀ (client : Client) (pair_symbol : String) (quantity : Decimal)
      (order_type : OrderType),
      "quantity" ∈ (SubmitParameters.mk (some quantity) none none client.id
        OrderMethod.Market order_type pair_symbol).toParams.root.map Prod.fst ∧
      "price" ∉ (SubmitParameters.mk (some quantity) none none client.id
        OrderMethod.Market order_type pair_symbol).toParams.root.map Prod.fst ∧
      ∀ kv ∈ (SubmitParameters.mk (some quantity) none none client.id
        OrderMethod.Market order_type pair_symbol).toParams.root,
        kv.2 ≠ JValue.null) := by
  refine ⟨fun _ _ => rfl, fun _ _ => rfl, fun _ _ => rfl, fun _ _ => rfl, ?_⟩
  intro client pair_symbol quantity order_type
  rcases hid : client.id with _ | cid
  all_goals
    refine ⟨?_, ?_, ?_⟩
  · simp only [SubmitParameters.toParams, Parameters.push_decimal,
      Parameters.push_string, Parameters.push_object, Parameters.new,
      Parameters.root, hid, Option.map, mem_keys_btreeInsert, List.map_nil,
      List.not_mem_nil, or_false]
    decide
  · simp only [SubmitParameters.toParams, Parameters.push_decimal,
      Parameters.push_string, Parameters.push_object, Parameters.new,
      Parameters.root, hid, Option.map, mem_keys_btreeInsert, List.map_nil,
      List.not_mem_nil, or_false]
    decide
  · intro kv hkv
    simp only [SubmitParameters.toParams, Parameters.push_decimal,
      Parameters.push_string, Parameters.push_object, Parameters.new,
      Parameters.root, hid, Option.map] at hkv
    rcases mem_btreeInsert_elim _ _ _ _ hkv with h | h
    · simp [h]
    rcases mem_btreeInsert_elim _ _ _ _ h with h | h
    · simp [h]
    rcases mem_btreeInsert_elim _ _ _ _ h with h | h
    · simp [h]
    rcases mem_btreeInsert_elim _ _ _ _ h with h | h
    · simp [h]
    simp at h
  · simp only [SubmitParameters.toParams, Parameters.push_decimal,
      Parameters.push_string, Parameters.push_object, Parameters.new,
      Parameters.root, hid, Option.map, mem_keys_btreeInsert, List.map_nil,
      List.not_mem_nil, or_false]
    decide
  · simp only [SubmitParameters.toParams, Parameters.push_decimal,
      Parameters.push_string, Parameters.push_object, Parameters.new,
      Parameters.root, hid, Option.map, mem_keys_btreeInsert, List.map_nil,
      List.not_mem_nil, or_false]
    decide
  · intro kv hkv
    simp only [SubmitParameters.toParams, Parameters.push_decimal,
      Parameters.push_string, Parameters.push_object, Parameters.new,
      Parameters.root, hid, Option.map] at hkv
    rcases mem_btreeInsert_elim _ _ _ _ hkv with h | h
    · simp [h]
    rcases mem_btreeInsert_elim _ _ _ _ h with h | h
    · simp [h]
    rcases mem_btreeInsert_elim _ _ _ _ h with h | h
    · simp [h]
    rcases mem_btreeInsert_elim _ _ _ _ h with h | h
    · simp [h]
    rcases mem_btreeInsert_elim _ _ _ _ h with h | h
    · simp [h]
    simp at h

/-! ## C7: limit bound validation -/

/-- C7: a `limit` above the documented maximum of 1000 makes
`all_orders` return `ParameterError` with name "limit" and the value
rendered as a string, with no network I/O; a `limit` at or below 1000
is accepted and encoded as a query pair of the transmitted request. -/
theorem c7_limit_validation (client : Client)
    (dE : String → Option (Response (List Order)))
    (dB : String → Option (List Order))
    (order_id : Option Int) (pair_symbol : String)
    (time_range : Option (Nat × Nat)) (page : Option Nat) (l : Nat)
    (clock : Except SystemTimeErrorData Nat)
    (transport : Except SurfErrorData HttpResponse) :
    (l > 1000 →
      client.all_orders dE dB order_id pair_symbol time_range page (some l)
          clock transport =
        ⟨Except.error (SendRequest.ParameterError ⟨"limit", toString l⟩),
         none⟩) ∧
    (l ≤ 1000 → ∀ (k : ApiKeys) (m : Nat), client.keys = some k →
      clock = .ok m →
      ∃ sent : OutRequest,
        (client.all_orders dE dB order_id pair_symbol time_range page (some l)
            clock transport).transmitted = some sent ∧
        ("limit", toString l) ∈ sent.url.query) := by
  constructor
  · intro h
    simp [Client.all_orders, h]
  · intro h k m hk hm
    subst hm
    have hle : ¬ l > 1000 := by omega
    have heq : client.all_orders dE dB order_id pair_symbol time_range page
        (some l) (.ok m) transport =
        client.send dE dB
          ⟨client.url_cache.all_orders,
           (allOrdersParams order_id pair_symbol time_range page).push_number
             "limit" (some (l : Int)),
           Method.Get, true⟩ false (.ok m) transport := by
      simp [Client.all_orders, hle]
    obtain ⟨sent, hsent, hurl, hbody⟩ := send_transmitted client dE dB
      ⟨client.url_cache.all_orders,
       (allOrdersParams order_id pair_symbol time_range page).push_number
         "limit" (some (l : Int)),
       Method.Get, true⟩ false (.ok m) transport
      (Or.inr ⟨⟨k, hk⟩, ⟨m, rfl⟩⟩)
    refine ⟨sent, by rw [heq]; exact hsent, ?_⟩
    have hquery : sent.url.query =
        client.url_cache.all_orders.query ++ List.map queryPair
          ((allOrdersParams order_id pair_symbol time_range page).push_number
            "limit" (some (l : Int))).root := by
      rw [hurl]
      simp [encodeParameters]
    rw [hquery]
    exact List.mem_append_right _ (List.mem_map_of_mem queryPair
      (self_mem_btreeInsert "limit" (JValue.num (l : Int))
        (allOrdersParams order_id pair_symbol time_range page).root))

/-- C7 witness: limit 1001 is rejected with value "1001"; limit 1000 is
encoded. -/
theorem c7_limit_validation_witness :
    ((Client.new (some ⟨"pk", "AAAA", ⟨[0, 0, 0], []⟩⟩) none).all_orders
        (fun _ => none) (fun _ => none) none "BTCUSDT" none none (some 1001)
        (.ok 3) (.error ⟨0, none⟩) =
      ⟨Except.error (SendRequest.ParameterError ⟨"limit", "1001"⟩), none⟩) ∧
    (∃ sent : OutRequest,
      ((Client.new (some ⟨"pk", "AAAA", ⟨[0, 0, 0], []⟩⟩) none).all_orders
          (fun _ => none) (fun _ => none) none "BTCUSDT" none none (some 1000)
          (.ok 3) (.error ⟨0, none⟩)).transmitted = some sent ∧
        ("limit", "1000") ∈ sent.url.query) :=
  ⟨(c7_limit_validation (Client.new (some ⟨"pk", "AAAA", ⟨[0, 0, 0], []⟩⟩) none)
      (fun _ => none) (fun _ => none) none "BTCUSDT" none none 1001
      (.ok 3) (.error ⟨0, none⟩)).1 (by decide),
   (c7_limit_validation (Client.new (some ⟨"pk", "AAAA", ⟨[0, 0, 0], []⟩⟩) none)
      (fun _ => none) (fun _ => none) none "BTCUSDT" none none 1000
      (.ok 3) (.error ⟨0, none⟩)).2 (by decide)
      ⟨"pk", "AAAA", ⟨[0, 0, 0], []⟩⟩ 3 rfl rfl⟩

/-! ## C9: EmptyData is produced only by the ticker call site -/

theorem dispatchResult_ne_emptyData {D : Type}
    (dE : String → Option (Response D)) (dB : String → Option D)
    (bare_data : Bool) (transport : Except SurfErrorData HttpResponse) :
    dispatchResult dE dB bare_data transport ≠
      Except.error (SendRequest.ResponseError ResponseError.EmptyData) := by
  rcases transport with e | resp
  · simp [dispatchResult]
  · by_cases hs : resp.status = 200
    · cases bare_data
      · rcases hd : dE resp.body with _ | r
        · simp [dispatchResult, hs, hd]
        · rcases hg : r.getData with er | d
          · simp [dispatchResult, hs, hd, hg]
            intro hcontra
            exact getData_ne_emptyData r (by rw [hg, hcontra])
          · simp [dispatchResult, hs, hd, hg]
      · rcases hd : dB resp.body with _ | d <;> simp [dispatchResult, hs, hd]
    · simp [dispatchResult, hs]

theorem send_result_ne_emptyData {D : Type} (client : Client)
    (dE : String → Option (Response D)) (dB : String → Option D)
    (request : Request) (bare_data : Bool)
    (clock : Except SystemTimeErrorData Nat)
    (transport : Except SurfErrorData HttpResponse) :
    (client.send dE dB request bare_data clock transport).result ≠
      Except.error (SendRequest.ResponseError ResponseError.EmptyData) := by
  rcases hE : encodeParameters request with ⟨url, body⟩
  by_cases hauth : request.requires_auth
  · rcases hk : client.keys with _ | k
    · simp [Client.send, hE, hauth, hk]
    · rcases hm : clock with e | m
      · simp [Client.send, hE, hauth, hk, hm, ApiKeys.generate_sign_nonce]
      · simpa [Client.send, hE, hauth, hk, hm, ApiKeys.generate_sign_nonce]
          using dispatchResult_ne_emptyData dE dB bare_data transport
  · simpa [Client.send, hE, hauth]
      using dispatchResult_ne_emptyData dE dB bare_data transport

/-- C9: an empty decoded ticker list makes the single-ticker operation
return `EmptyData`; the generic dispatch pipeline itself never produces
`EmptyData`, and neither do the other embedded operations
(`all_orders`, `submit_order`) — the mapping lives only at the ticker
call site. -/
theorem c9_empty_data_only_ticker (client : Client)
    (dE : String → Option (Response (List Ticker)))
    (dB : String → Option (List Ticker)) (pair_symbol body : String)
    (clock : Except SystemTimeErrorData Nat) (message : Option String)
    (code : Int)
    (hdec : dE body = some ⟨some [], true, message, code⟩) :
    (client.ticker dE dB pair_symbol clock (.ok ⟨200, body⟩)).result =
      Except.error (SendRequest.ResponseError ResponseError.EmptyData) ∧
    (∀ (D : Type) (dE2 : String → Option (Response D)) (dB2 : String → Option D)
      (request : Request) (bare_data : Bool)
      (clock2 : Except SystemTimeErrorData Nat)
      (transport2 : Except SurfErrorData HttpResponse),
      (client.send dE2 dB2 request bare_data clock2 transport2).result ≠
        Except.error (SendRequest.ResponseError ResponseError.EmptyData)) ∧
    (∀ (dEo : String → Option (Response (List Order)))
      (dBo : String → Option (List Order)) (order_id : Option Int)
      (ps : String) (time_range : Option (Nat × Nat)) (page : Option Nat)
      (limit : Option Nat) (clock2 : Except SystemTimeErrorData Nat)
      (transport2 : Except SurfErrorData HttpResponse),
      (client.all_orders dEo dBo order_id ps time_range page limit clock2
          transport2).result ≠
        Except.error (SendRequest.ResponseError ResponseError.EmptyData)) ∧
    (∀ (dEn : String → Option (Response NewOrder))
      (dBn : String → Option NewOrder) (parameters : SubmitParameters)
      (clock2 : Except SystemTimeErrorData Nat)
      (transport2 : Except SurfErrorData HttpResponse),
      (client.submit_order dEn dBn parameters clock2 transport2).result ≠
        Except.error (SendRequest.ResponseError ResponseError.EmptyData)) := by
  refine ⟨?_, ?_, ?_, ?_⟩
  · simp [Client.ticker, Client.send, encodeParameters, dispatchResult, hdec,
      Response.getData]
  · intro D dE2 dB2 request bare_data clock2 transport2
    exact send_result_ne_emptyData client dE2 dB2 request bare_data clock2
      transport2
  · intro dEo dBo order_id ps time_range page limit clock2 transport2
    rcases limit with _ | l
    · simpa [Client.all_orders]
        using send_result_ne_emptyData client dEo dBo
          ⟨client.url_cache.all_orders, allOrdersParams order_id ps time_range
            page, Method.Get, true⟩ false clock2 transport2
    · by_cases hl : l > 1000
      · simp [Client.all_orders, hl]
      · simpa [Client.all_orders, hl]
          using send_result_ne_emptyData client dEo dBo
            ⟨client.url_cache.all_orders,
             (allOrdersParams order_id ps time_range page).push_number "limit"
               (some (l : Int)), Method.Get, true⟩ false clock2 transport2
  · intro dEn dBn parameters clock2 transport2
    exact send_result_ne_emptyData client dEn dBn
      ⟨client.url_cache.submit_cancel_order, parameters.toParams, Method.Post,
       true⟩ false clock2 transport2

/-- C9 witness: a successful envelope with an empty list yields
`EmptyData`, and a sample send call does not. -/
theorem c9_empty_data_only_ticker_witness :
    ((Client.new none none).ticker (fun _ => some ⟨some [], true, none, 0⟩)
        (fun _ => none) "BTCUSDT" (.ok 0) (.ok ⟨200, "body"⟩)).result =
      Except.error (SendRequest.ResponseError ResponseError.EmptyData) ∧
    ((Client.new none none).send (fun _ => (none : Option (Response Nat)))
        (fun _ => none) ⟨⟨"u", []⟩, Parameters.new, Method.Get, false⟩ false
        (.ok 0) (.ok ⟨200, "body"⟩)).result ≠
      Except.error (SendRequest.ResponseError ResponseError.EmptyData) := by
  have h := c9_empty_data_only_ticker (Client.new none none)
    (fun _ => some ⟨some [], true, none, 0⟩) (fun _ => none) "BTCUSDT" "body"
    (.ok 0) none 0 rfl
  exact ⟨h.1, h.2.1 Nat (fun _ => none) (fun _ => none)
    ⟨⟨"u", []⟩, Parameters.new, Method.Get, false⟩ false (.ok 0)
    (.ok ⟨200, "body"⟩)⟩

end Btcturk
